import Mathlib

/-!
Shallow embedding of `kpostgres_fixture` (src/src/lib.rs) and proofs about its
two scoped-acquisition functions, `with_temporary_postgres` and
`with_temporary_database`, plus the helpers `clone_tls_mode` and
`random_string`.

External effects (the docker daemon and the postgres server) are modelled by an
environment record giving the outcome of each effectful call; each embedded
function returns its result together with a trace of the effectful events it
performed, in order.  Rust `Result` is `Except`, the `?` operator is the
early-return structure of the nested matches, and the `try_!` closures of the
source are the nested `match` blocks below.
-/

/-- An opaque postgres-protocol error (the payload of `postgres::Error`). -/
structure PgErr where
  code : Nat
deriving DecidableEq

/-- An opaque docker daemon error (the payload of `dockworker::errors::Error`). -/
structure DockerErr where
  code : Nat
deriving DecidableEq

/-- An opaque live connection handle (`postgres::Connection`). -/
structure Conn where
  id : Nat
deriving DecidableEq

/-- The crate's error enum (src/src/lib.rs lines 10-17): `Docker`,
`DockerCreationFailed(&'static str)` and `Postgres`.  There is no
timeout variant. -/
inductive Error where
  | Docker (e : DockerErr)
  | DockerCreationFailed (msg : String)
  | Postgres (e : PgErr)
deriving DecidableEq

/-- `TlsMode<'a>` of the postgres crate, parametrised by the type of the
handshake reference it may hold. -/
inductive TlsMode (H : Type) where
  | noTls
  | prefer (handshake : H)
  | require (handshake : H)
deriving DecidableEq

/-- src/src/lib.rs lines 92-98: match on the variant and rebuild it, copying
the contained handshake reference. -/
def clone_tls_mode {H : Type} : TlsMode H → TlsMode H
  | TlsMode.noTls => TlsMode.noTls
  | TlsMode.prefer h => TlsMode.prefer h
  | TlsMode.require h => TlsMode.require h

/-- The 62-character alphabet of rand's `distributions::Alphanumeric`. -/
def alphanumericChars : List Char :=
  "abcdefghijklmnopqrstuvwxyzABCDEFGHIJKLMNOPQRSTUVWXYZ0123456789".data

/-- The lowercase alphanumeric alphabet `[a-z0-9]`. -/
def lowerAlnumChars : List Char :=
  "abcdefghijklmnopqrstuvwxyz0123456789".data

/-- `char::to_ascii_lowercase`: shift an ASCII uppercase letter down by 32,
leave every other character unchanged. -/
def toAsciiLowercase (c : Char) : Char :=
  if 'A' ≤ c ∧ c ≤ 'Z' then Char.ofNat (c.toNat + 32) else c

/-- src/src/lib.rs lines 104-111: sample `length` characters from the
`Alphanumeric` distribution and lowercase each.  The thread rng is modelled
by the stream `sample` of its successive draws. -/
def random_string (sample : Nat → Char) (length : Nat) : List Char :=
  (List.range length).map (fun i => toAsciiLowercase (sample i))

/-- The literal prefix of the generated database name (src/src/lib.rs line
125: `format!` with the fixture tag). -/
def dbnameStem : List Char :=
  "kpg_fixture_".data

/-- src/src/lib.rs line 125: the generated database name, the fixture tag
followed by 20 random characters. -/
def gen_dbname (sample : Nat → Char) : List Char :=
  dbnameStem ++ random_string sample 20

/-- src/src/lib.rs line 127: the generated password, 32 random characters. -/
def gen_password (sample : Nat → Char) : List Char :=
  random_string sample 32

/-- `postgres::params::ConnectParams`, with the host modelled as a string and
durations in milliseconds.  `options` is the ordered key/value list. -/
structure ConnectParams where
  host : String
  port : Nat
  user : String
  password : Option (List Char)
  database : Option (List Char)
  connectTimeoutMs : Option Nat
  options : List (String × String)
deriving DecidableEq

/-- src/src/lib.rs lines 133-145: the builder chain that derives the sandbox
parameters: `port` from the server params, `user` = generated name with the
generated password, `database` = generated name, `connect_timeout` copied,
every option copied in iteration order, built on the cloned host. -/
def derive_sandbox_params (params : ConnectParams) (dbname pass : List Char) :
    ConnectParams :=
  { host := params.host
    port := params.port
    user := String.mk dbname
    password := some pass
    database := some dbname
    connectTimeoutMs := params.connectTimeoutMs
    options := params.options }

/-- The five SQL statements `with_temporary_database` can issue on the
administrative connection, in source order of appearance. -/
inductive Stmt where
  | createRole
  | createDatabase
  | revokeAll
  | dropDatabase
  | dropRole
deriving DecidableEq

/-- Observable events of one `with_temporary_database` invocation. -/
inductive DbEvent where
  | connect
  | exec (s : Stmt)
  | task
deriving DecidableEq

/-- Outcomes of the external calls made by `with_temporary_database`:
the administrative connect, each SQL statement executed on that connection,
the caller's task (which returns a `T` directly), and the two rng streams. -/
structure DbEnv (T : Type) where
  connect : Except PgErr Conn
  exec : Stmt → Except PgErr Unit
  task : ConnectParams → T
  sampleName : Nat → Char
  samplePass : Nat → Char

/-- src/src/lib.rs lines 120-184 (`with_temporary_database`), with the trace
of effectful events it performs.  The two nested `try_!` closures of the
source are the two nested match blocks: a failing statement early-returns
from its enclosing closure, so a `DROP DATABASE` failure discards the inner
result and a `DROP ROLE` failure discards the outer one. -/
def with_temporary_database {T : Type} (params : ConnectParams)
    (env : DbEnv T) : Except Error T × List DbEvent :=
  let dbname := gen_dbname env.sampleName
  let pass := gen_password env.samplePass
  let new_params := derive_sandbox_params params dbname pass
  match env.connect with
  | Except.error e => (Except.error (Error.Postgres e), [DbEvent.connect])
  | Except.ok _conn =>
    match env.exec Stmt.createRole with
    | Except.error e =>
        (Except.error (Error.Postgres e),
         [DbEvent.connect, DbEvent.exec Stmt.createRole])
    | Except.ok _ =>
      -- outer try_ closure: CREATE DATABASE …; inner; DROP DATABASE …; result?
      let outer : Except Error T × List DbEvent :=
        match env.exec Stmt.createDatabase with
        | Except.error e =>
            (Except.error (Error.Postgres e), [DbEvent.exec Stmt.createDatabase])
        | Except.ok _ =>
          -- inner try_ closure: REVOKE …; f(new_params, tls_mode)
          let inner : Except Error T × List DbEvent :=
            match env.exec Stmt.revokeAll with
            | Except.error e =>
                (Except.error (Error.Postgres e), [DbEvent.exec Stmt.revokeAll])
            | Except.ok _ =>
                (Except.ok (env.task new_params),
                 [DbEvent.exec Stmt.revokeAll, DbEvent.task])
          match env.exec Stmt.dropDatabase with
          | Except.error e =>
              (Except.error (Error.Postgres e),
               DbEvent.exec Stmt.createDatabase ::
                 (inner.2 ++ [DbEvent.exec Stmt.dropDatabase]))
          | Except.ok _ =>
              (inner.1,
               DbEvent.exec Stmt.createDatabase ::
                 (inner.2 ++ [DbEvent.exec Stmt.dropDatabase]))
      let base :=
        DbEvent.connect :: DbEvent.exec Stmt.createRole :: outer.2
      match env.exec Stmt.dropRole with
      | Except.error e =>
          (Except.error (Error.Postgres e), base ++ [DbEvent.exec Stmt.dropRole])
      | Except.ok _ =>
          (outer.1, base ++ [DbEvent.exec Stmt.dropRole])

/-- A port mapping entry of the docker container listing
(`dockworker::container::Port`): the container-internal port and the
host-mapped public port, when one exists. -/
structure Port where
  PrivatePort : Nat
  PublicPort : Option Nat
deriving DecidableEq

/-- One entry of the docker container listing; only its `Ports` field is
consulted. -/
structure Container where
  Ports : List Port
deriving DecidableEq

/-- src/src/lib.rs lines 50-55: the first public port among the mappings whose
private port is 5432 (`filter` then `flat_map(PublicPort)` then `next`). -/
def discoverPort (c : Container) : Option Nat :=
  ((c.Ports.filter (fun p => p.PrivatePort == 5432)).filterMap
      (fun p => p.PublicPort)).head?

/-- Observable events of one `with_temporary_postgres` invocation.  The
stop event records its grace period in seconds and the remove event whether
force was requested. -/
inductive PgEvent where
  | createContainer
  | startContainer
  | listContainers
  | connectAttempt (n : Nat)
  | sleepMs (ms : Nat)
  | task
  | stopContainer (graceSecs : Nat)
  | removeContainer (force : Bool)
deriving DecidableEq

/-- Outcomes of the external calls made by `with_temporary_postgres`.  The
connect attempts are numbered from 1; the task receives the connection that
finally succeeded (its `ConnectParams`/`TlsMode` arguments are fixed by the
function and carry no information here). -/
structure PgEnv (T : Type) where
  dockerConnect : Except DockerErr Unit
  createContainer : Except DockerErr String
  startContainer : Except DockerErr Unit
  listContainers : Except DockerErr (List Container)
  connectAttempt : Nat → Except PgErr Conn
  task : Conn → T
  stopContainer : Except DockerErr Unit
  removeContainer : Except DockerErr Unit

/-- A run either produces a `Result` value or panics (the source can panic on
`container.first().unwrap()`). -/
inductive Outcome (T : Type) where
  | result (r : Except Error T)
  | panicked

instance {E A : Type} [DecidableEq E] [DecidableEq A] : DecidableEq (Except E A)
  | Except.ok a, Except.ok b =>
      if h : a = b then isTrue (by rw [h])
      else isFalse (fun hc => h (Except.ok.inj hc))
  | Except.ok _, Except.error _ => isFalse (fun hc => Except.noConfusion hc)
  | Except.error _, Except.ok _ => isFalse (fun hc => Except.noConfusion hc)
  | Except.error e, Except.error f =>
      if h : e = f then isTrue (by rw [h])
      else isFalse (fun hc => h (Except.error.inj hc))

instance {T : Type} [DecidableEq T] : DecidableEq (Outcome T)
  | Outcome.result r, Outcome.result s =>
      if h : r = s then isTrue (by rw [h])
      else isFalse (fun hc => h (Outcome.result.inj hc))
  | Outcome.result _, Outcome.panicked => isFalse (fun hc => Outcome.noConfusion hc)
  | Outcome.panicked, Outcome.result _ => isFalse (fun hc => Outcome.noConfusion hc)
  | Outcome.panicked, Outcome.panicked => isTrue rfl

/-- src/src/lib.rs lines 66-80, the connect-retry loop.  The source counts
attempts upward in `n` and breaks with the error once `n >= 100`; here the
same loop recurses structurally on the remaining attempt budget `left`
(invariant: the attempt now being made is number `n + 1`, and
`n + 1 + left = 100` from the entry point below, so `left = 0` exactly when
`n >= 100` holds after the increment).  On a failed attempt with budget
remaining the thread sleeps 100 ms and retries; a successful attempt breaks
immediately.  Returns the loop's result, the number of attempts made, and
the event trace. -/
def connectLoopAux (attempt : Nat → Except PgErr Conn) :
    Nat → Nat → Except PgErr Conn × Nat × List PgEvent
  | n, 0 =>
    match attempt (n + 1) with
    | Except.ok c => (Except.ok c, n + 1, [PgEvent.connectAttempt (n + 1)])
    | Except.error e => (Except.error e, n + 1, [PgEvent.connectAttempt (n + 1)])
  | n, left + 1 =>
    match attempt (n + 1) with
    | Except.ok c => (Except.ok c, n + 1, [PgEvent.connectAttempt (n + 1)])
    | Except.error _ =>
      let r := connectLoopAux attempt (n + 1) left
      (r.1, r.2.1, PgEvent.connectAttempt (n + 1) :: PgEvent.sleepMs 100 :: r.2.2)

/-- The connect-retry loop as entered by the source: first attempt is number
1, and up to 99 further attempts may follow. -/
def connect_loop (attempt : Nat → Except PgErr Conn) :
    Except PgErr Conn × Nat × List PgEvent :=
  connectLoopAux attempt 0 99

/-- The static message of the port-discovery failure (src/src/lib.rs line 55). -/
def portErrorMsg : String :=
  "Failed to find postgres port"

/-- Fixture: a container id. -/
def cid0 : String :=
  "cid0"

/-- src/src/lib.rs line 88-89: after the outer closure, remove the container
(force = true); a removal failure early-returns, discarding `r`. -/
def finishRemove {T : Type} (env : PgEnv T) (r : Except Error T)
    (tr : List PgEvent) : Outcome T × List PgEvent :=
  match env.removeContainer with
  | Except.error e =>
      (Outcome.result (Except.error (Error.Docker e)),
       tr ++ [PgEvent.removeContainer true])
  | Except.ok _ =>
      (Outcome.result r, tr ++ [PgEvent.removeContainer true])

/-- src/src/lib.rs line 85-86: after the inner closure, stop the container
with a 5 s grace period; a stop failure early-returns from the outer closure,
discarding `r`, and the function then still removes the container. -/
def finishStopRemove {T : Type} (env : PgEnv T) (r : Except Error T)
    (tr : List PgEvent) : Outcome T × List PgEvent :=
  match env.stopContainer with
  | Except.error e =>
      finishRemove env (Except.error (Error.Docker e))
        (tr ++ [PgEvent.stopContainer 5])
  | Except.ok _ =>
      finishRemove env r (tr ++ [PgEvent.stopContainer 5])

/-- src/src/lib.rs lines 23-90 (`with_temporary_postgres`), with the trace of
effectful events.  Failures of `Docker::connect_with_defaults` and
`create_container` return before anything was acquired; a `start_container`
failure skips straight to removal; the inner closure lists the container,
takes `first().unwrap()` (panicking when the listing is empty, in which case
neither stop nor remove runs), discovers the public port mapped to 5432
(`DockerCreationFailed` when absent), runs the connect-retry loop, and on a
connection invokes the task; then the container is stopped and removed. -/
def with_temporary_postgres {T : Type} (env : PgEnv T) :
    Outcome T × List PgEvent :=
  match env.dockerConnect with
  | Except.error e => (Outcome.result (Except.error (Error.Docker e)), [])
  | Except.ok _ =>
    match env.createContainer with
    | Except.error e =>
        (Outcome.result (Except.error (Error.Docker e)), [PgEvent.createContainer])
    | Except.ok _cid =>
      match env.startContainer with
      | Except.error e =>
          finishRemove env (Except.error (Error.Docker e))
            [PgEvent.createContainer, PgEvent.startContainer]
      | Except.ok _ =>
        match env.listContainers with
        | Except.error e =>
            finishStopRemove env (Except.error (Error.Docker e))
              [PgEvent.createContainer, PgEvent.startContainer,
               PgEvent.listContainers]
        | Except.ok containers =>
          -- `container.first().unwrap()`: panics exactly when the listing is
          -- empty, else yields the first entry
          match containers with
          | [] =>
              (Outcome.panicked,
               [PgEvent.createContainer, PgEvent.startContainer,
                PgEvent.listContainers])
          | c :: _ =>
            match discoverPort c with
            | none =>
                finishStopRemove env
                  (Except.error (Error.DockerCreationFailed portErrorMsg))
                  [PgEvent.createContainer, PgEvent.startContainer,
                   PgEvent.listContainers]
            | some _port =>
              let lp := connect_loop env.connectAttempt
              let base :=
                [PgEvent.createContainer, PgEvent.startContainer,
                 PgEvent.listContainers] ++ lp.2.2
              match lp.1 with
              | Except.error e =>
                  finishStopRemove env (Except.error (Error.Postgres e)) base
              | Except.ok conn =>
                  finishStopRemove env (Except.ok (env.task conn))
                    (base ++ [PgEvent.task])

/-!  ## Result precedence of `with_temporary_database` (claim C1)  -/

/-- Follows the amended claim C1's words: the reported result of
`with_temporary_database` obeys a *later-cleanup-failure-wins* precedence.
After a successful `CREATE ROLE`, a failing `DROP ROLE` is always the
reported error; otherwise a failing `DROP DATABASE` (executed exactly when
`CREATE DATABASE` succeeded) is reported; otherwise the setup failure
(`CREATE DATABASE`, then `REVOKE`) is reported; only when every statement
succeeded is the task's result returned. -/
def dbResultSpec {T : Type} (params : ConnectParams) (env : DbEnv T) :
    Except Error T :=
  match env.connect with
  | Except.error e => Except.error (Error.Postgres e)
  | Except.ok _ =>
    match env.exec Stmt.createRole with
    | Except.error e => Except.error (Error.Postgres e)
    | Except.ok _ =>
      match env.exec Stmt.dropRole with
      | Except.error e => Except.error (Error.Postgres e)
      | Except.ok _ =>
        match env.exec Stmt.createDatabase with
        | Except.error e => Except.error (Error.Postgres e)
        | Except.ok _ =>
          match env.exec Stmt.dropDatabase with
          | Except.error e => Except.error (Error.Postgres e)
          | Except.ok _ =>
            match env.exec Stmt.revokeAll with
            | Except.error e => Except.error (Error.Postgres e)
            | Except.ok _ =>
              Except.ok (env.task (derive_sandbox_params params
                (gen_dbname env.sampleName) (gen_password env.samplePass)))

/-- Fixture: administrative connection parameters. -/
def params0 : ConnectParams :=
  { host := "localhost"
    port := 5432
    user := "postgres"
    password := none
    database := some ("postgres".data)
    connectTimeoutMs := none
    options := [] }

/-- Fixture: an environment in which every external call succeeds and the
task returns 42. -/
def dbEnvAllOk : DbEnv Nat :=
  { connect := Except.ok { id := 1 }
    exec := fun _ => Except.ok ()
    task := fun _ => 42
    sampleName := fun _ => 'a'
    samplePass := fun _ => 'b' }

/-- Fixture: as `dbEnvAllOk` but `DROP DATABASE` fails with error 5. -/
def dbEnvDropDbFails : DbEnv Nat :=
  { dbEnvAllOk with
      exec := fun s =>
        if s = Stmt.dropDatabase then Except.error { code := 5 }
        else Except.ok () }

/-- The trace of a run of the retry loop in which every attempted connection
fails: attempts `n+1`, `n+2`, …, with a 100 ms sleep between consecutive
attempts and none after the last. -/
def allFailEvents : Nat → Nat → List PgEvent
  | n, 0 => [PgEvent.connectAttempt (n + 1)]
  | n, left + 1 =>
      PgEvent.connectAttempt (n + 1) :: PgEvent.sleepMs 100 ::
        allFailEvents (n + 1) left

/-- The trace prefix common to every run that reached the container listing. -/
def startTrace : List PgEvent :=
  [PgEvent.createContainer, PgEvent.startContainer, PgEvent.listContainers]

/-- Fixture: the container listing entry used by the success fixtures: the
internal port 5432 is mapped to public port 49200. -/
def container0 : Container :=
  { Ports := [{ PrivatePort := 5432, PublicPort := some 49200 }] }

/-- Fixture: an environment for `with_temporary_postgres` in which every
external call succeeds, the first connect attempt succeeds, and the task
returns the id of the connection it was handed. -/
def pgEnvAllOk : PgEnv Nat :=
  { dockerConnect := Except.ok ()
    createContainer := Except.ok cid0
    startContainer := Except.ok ()
    listContainers := Except.ok [container0]
    connectAttempt := fun _ => Except.ok { id := 7 }
    task := fun c => c.id
    stopContainer := Except.ok ()
    removeContainer := Except.ok () }

/-- Fixture: starting the container fails with docker error 13 and removing
it afterwards fails with docker error 77. -/
def pgEnvStartRemoveFail : PgEnv Nat :=
  { pgEnvAllOk with
      startContainer := Except.error { code := 13 }
      removeContainer := Except.error { code := 77 } }

/-- The attempt number carried by a connect-attempt event. -/
def attemptNum : PgEvent → Option Nat
  | PgEvent.connectAttempt k => some k
  | _ => none

/-- Fixture: every connect attempt fails, attempt `k` with protocol error
code `k`; all docker calls succeed. -/
def pgEnvConnNeverOk : PgEnv Nat :=
  { pgEnvAllOk with connectAttempt := fun k => Except.error { code := k } }

/-- Fixture: the container listing succeeds but is empty. -/
def pgEnvEmptyListing : PgEnv Nat :=
  { pgEnvAllOk with listContainers := Except.ok [] }

/-- Fixture: the first listed container exposes no port mappings at all. -/
def pgEnvNoPort : PgEnv Nat :=
  { pgEnvAllOk with listContainers := Except.ok [{ Ports := [] }] }

/-- Fixture: as `pgEnvNoPort` but the stop call fails with docker error 9. -/
def pgEnvNoPortStopFail : PgEnv Nat :=
  { pgEnvNoPort with stopContainer := Except.error { code := 9 } }

/-- Fixture: an all-success environment whose task returns the parameters it
is handed. -/
def dbEnvParamsTask : DbEnv ConnectParams :=
  { connect := Except.ok { id := 1 }
    exec := fun _ => Except.ok ()
    task := fun p => p
    sampleName := fun _ => 'a'
    samplePass := fun _ => 'b' }

/-- C1 (amended): the result of `with_temporary_database` equals the
later-cleanup-failure-wins precedence of `dbResultSpec`: a `DROP ROLE`
failure replaces everything, then a `DROP DATABASE` failure, and only
otherwise is the earliest setup failure (or the task's result) reported. -/
theorem with_temporary_database_result_precedence {T : Type}
    (params : ConnectParams) (env : DbEnv T) :
    (with_temporary_database params env).1 = dbResultSpec params env := by
  unfold with_temporary_database dbResultSpec
  cases env.connect <;>
    cases env.exec Stmt.createRole <;>
      cases env.exec Stmt.createDatabase <;>
        cases env.exec Stmt.revokeAll <;>
          cases env.exec Stmt.dropDatabase <;>
            cases env.exec Stmt.dropRole <;> rfl

/-- Counterexample to C1 as stated: with every step succeeding except
`DROP DATABASE`, the task ran and returned 42, yet the function reports the
`DROP DATABASE` error instead of the task's successful result. -/
theorem drop_database_failure_replaces_task_result :
    (with_temporary_database params0 dbEnvDropDbFails).1 =
        Except.error (Error.Postgres { code := 5 }) ∧
      (with_temporary_database params0 dbEnvDropDbFails).1 ≠
        Except.ok 42 ∧
      DbEvent.task ∈ (with_temporary_database params0 dbEnvDropDbFails).2 := by
  refine ⟨rfl, ?_, by decide⟩
  decide

/-!  ## Helper lemmas about the cleanup tail of `with_temporary_postgres`  -/

theorem finishRemove_trace {T : Type} (env : PgEnv T) (r : Except Error T)
    (tr : List PgEvent) :
    (finishRemove env r tr).2 = tr ++ [PgEvent.removeContainer true] := by
  unfold finishRemove
  cases env.removeContainer <;> rfl

theorem finishStopRemove_trace {T : Type} (env : PgEnv T) (r : Except Error T)
    (tr : List PgEvent) :
    (finishStopRemove env r tr).2 =
      tr ++ [PgEvent.stopContainer 5, PgEvent.removeContainer true] := by
  unfold finishStopRemove
  cases env.stopContainer <;> simp [finishRemove_trace]

theorem finishRemove_result_ok {T : Type} (env : PgEnv T) (r : Except Error T)
    (tr : List PgEvent) (h : env.removeContainer = Except.ok ()) :
    (finishRemove env r tr).1 = Outcome.result r := by
  unfold finishRemove
  rw [h]

theorem finishRemove_result_err {T : Type} (env : PgEnv T) (r : Except Error T)
    (tr : List PgEvent) (e : DockerErr) (h : env.removeContainer = Except.error e) :
    (finishRemove env r tr).1 = Outcome.result (Except.error (Error.Docker e)) := by
  unfold finishRemove
  rw [h]

theorem finishStopRemove_result_ok {T : Type} (env : PgEnv T)
    (r : Except Error T) (tr : List PgEvent)
    (h1 : env.stopContainer = Except.ok ())
    (h2 : env.removeContainer = Except.ok ()) :
    (finishStopRemove env r tr).1 = Outcome.result r := by
  unfold finishStopRemove
  rw [h1]
  exact finishRemove_result_ok env r _ h2

theorem finishStopRemove_result_stopErr {T : Type} (env : PgEnv T)
    (r : Except Error T) (tr : List PgEvent) (e : DockerErr)
    (h1 : env.stopContainer = Except.error e)
    (h2 : env.removeContainer = Except.ok ()) :
    (finishStopRemove env r tr).1 =
      Outcome.result (Except.error (Error.Docker e)) := by
  unfold finishStopRemove
  rw [h1]
  exact finishRemove_result_ok env _ _ h2

theorem finishStopRemove_result_removeErr {T : Type} (env : PgEnv T)
    (r : Except Error T) (tr : List PgEvent) (e : DockerErr)
    (h2 : env.removeContainer = Except.error e) :
    (finishStopRemove env r tr).1 =
      Outcome.result (Except.error (Error.Docker e)) := by
  unfold finishStopRemove
  cases h1 : env.stopContainer <;> exact finishRemove_result_err env _ _ e h2

/-!  ## Helper lemmas about the connect-retry loop  -/

theorem connectLoopAux_allFail (attempt : Nat → Except PgErr Conn) :
    ∀ left n,
      (∀ k, n + 1 ≤ k → k ≤ n + 1 + left → ∃ e, attempt k = Except.error e) →
      connectLoopAux attempt n left =
        (attempt (n + 1 + left), n + 1 + left, allFailEvents n left) := by
  intro left
  induction left with
  | zero =>
      intro n h
      obtain ⟨e, he⟩ := h (n + 1) (le_refl _) (by omega)
      simp [connectLoopAux, allFailEvents, he]
  | succ left ih =>
      intro n h
      obtain ⟨e, he⟩ := h (n + 1) (le_refl _) (by omega)
      have hrec := ih (n + 1) (fun k hk1 hk2 => h k (by omega) (by omega))
      have harith : n + 1 + 1 + left = n + 1 + (left + 1) := by omega
      simp only [connectLoopAux, he, hrec, allFailEvents, harith]

theorem connectLoopAux_firstOk (attempt : Nat → Except PgErr Conn) :
    ∀ left n j c, n < j → j ≤ n + 1 + left →
      (∀ k, n < k → k < j → ∃ e, attempt k = Except.error e) →
      attempt j = Except.ok c →
      (connectLoopAux attempt n left).1 = Except.ok c ∧
        (connectLoopAux attempt n left).2.1 = j := by
  intro left
  induction left with
  | zero =>
      intro n j c h1 h2 hf hj
      have hjn : j = n + 1 := by omega
      subst hjn
      simp [connectLoopAux, hj]
  | succ left ih =>
      intro n j c h1 h2 hf hj
      by_cases hje : j = n + 1
      · subst hje
        simp [connectLoopAux, hj]
      · obtain ⟨e, he⟩ := hf (n + 1) (by omega) (by omega)
        have hr := ih (n + 1) j c (by omega) (by omega)
          (fun k hk1 hk2 => hf k (by omega) hk2) hj
        simp [connectLoopAux, he, hr.1, hr.2]

theorem connectLoopAux_trace_mem (attempt : Nat → Except PgErr Conn) :
    ∀ left n ev, ev ∈ (connectLoopAux attempt n left).2.2 →
      (∃ k, ev = PgEvent.connectAttempt k) ∨ ev = PgEvent.sleepMs 100 := by
  intro left
  induction left with
  | zero =>
      intro n ev h
      cases hA : attempt (n + 1) <;> simp [connectLoopAux, hA] at h <;>
        exact Or.inl ⟨n + 1, h⟩
  | succ left ih =>
      intro n ev h
      cases hA : attempt (n + 1) with
      | ok c =>
          simp [connectLoopAux, hA] at h
          exact Or.inl ⟨n + 1, h⟩
      | error e =>
          simp [connectLoopAux, hA] at h
          rcases h with h | h | h
          · exact Or.inl ⟨n + 1, h⟩
          · exact Or.inr h
          · exact ih n.succ ev h

theorem connect_loop_no_task (attempt : Nat → Except PgErr Conn) :
    PgEvent.task ∉ (connect_loop attempt).2.2 := by
  intro h
  rcases connectLoopAux_trace_mem attempt 99 0 PgEvent.task h with ⟨k, hk⟩ | hk <;>
    exact PgEvent.noConfusion hk

theorem connect_loop_no_stop (attempt : Nat → Except PgErr Conn) (g : Nat) :
    PgEvent.stopContainer g ∉ (connect_loop attempt).2.2 := by
  intro h
  rcases connectLoopAux_trace_mem attempt 99 0 _ h with ⟨k, hk⟩ | hk <;>
    exact PgEvent.noConfusion hk

theorem connect_loop_no_remove (attempt : Nat → Except PgErr Conn) (b : Bool) :
    PgEvent.removeContainer b ∉ (connect_loop attempt).2.2 := by
  intro h
  rcases connectLoopAux_trace_mem attempt 99 0 _ h with ⟨k, hk⟩ | hk <;>
    exact PgEvent.noConfusion hk

/-- Exhaustive case analysis of a `with_temporary_postgres` run: one disjunct
per control path of the source, each recording the environment conditions
that select it and the run's full output. -/
theorem pg_cases {T : Type} (env : PgEnv T) :
    (∃ e, env.dockerConnect = Except.error e ∧
      with_temporary_postgres env =
        (Outcome.result (Except.error (Error.Docker e)), [])) ∨
    (∃ e, env.dockerConnect = Except.ok () ∧
      env.createContainer = Except.error e ∧
      with_temporary_postgres env =
        (Outcome.result (Except.error (Error.Docker e)),
         [PgEvent.createContainer])) ∨
    (∃ s e, env.dockerConnect = Except.ok () ∧
      env.createContainer = Except.ok s ∧
      env.startContainer = Except.error e ∧
      with_temporary_postgres env =
        finishRemove env (Except.error (Error.Docker e))
          [PgEvent.createContainer, PgEvent.startContainer]) ∨
    (∃ s, env.dockerConnect = Except.ok () ∧
      env.createContainer = Except.ok s ∧
      env.startContainer = Except.ok () ∧
      ((∃ e, env.listContainers = Except.error e ∧
          with_temporary_postgres env =
            finishStopRemove env (Except.error (Error.Docker e)) startTrace) ∨
        (env.listContainers = Except.ok [] ∧
          with_temporary_postgres env = (Outcome.panicked, startTrace)) ∨
        (∃ co cs, env.listContainers = Except.ok (co :: cs) ∧
          ((discoverPort co = none ∧
              with_temporary_postgres env =
                finishStopRemove env
                  (Except.error (Error.DockerCreationFailed portErrorMsg))
                  startTrace) ∨
            (∃ p, discoverPort co = some p ∧
              ((∃ e, (connect_loop env.connectAttempt).1 = Except.error e ∧
                  with_temporary_postgres env =
                    finishStopRemove env (Except.error (Error.Postgres e))
                      (startTrace ++ (connect_loop env.connectAttempt).2.2)) ∨
                (∃ conn,
                  (connect_loop env.connectAttempt).1 = Except.ok conn ∧
                  with_temporary_postgres env =
                    finishStopRemove env (Except.ok (env.task conn))
                      (startTrace ++ (connect_loop env.connectAttempt).2.2 ++
                        [PgEvent.task])))))))) := by
  unfold with_temporary_postgres
  cases hd : env.dockerConnect with
  | error e => exact Or.inl ⟨e, rfl, rfl⟩
  | ok u =>
    cases hc : env.createContainer with
    | error e => exact Or.inr (Or.inl ⟨e, rfl, rfl, rfl⟩)
    | ok s =>
      cases hs : env.startContainer with
      | error e => exact Or.inr (Or.inr (Or.inl ⟨s, e, rfl, rfl, rfl, rfl⟩))
      | ok v =>
        refine Or.inr (Or.inr (Or.inr ⟨s, rfl, rfl, rfl, ?_⟩))
        cases hl : env.listContainers with
        | error e => exact Or.inl ⟨e, rfl, rfl⟩
        | ok l =>
          cases l with
          | nil => exact Or.inr (Or.inl ⟨rfl, rfl⟩)
          | cons co cs =>
            refine Or.inr (Or.inr ⟨co, cs, rfl, ?_⟩)
            cases hdp : discoverPort co with
            | none =>
                refine Or.inl ⟨rfl, ?_⟩
                simp only [hdp]
                rfl
            | some p =>
              refine Or.inr ⟨p, rfl, ?_⟩
              rcases hcl : connect_loop env.connectAttempt with ⟨res, m, tr⟩
              cases res with
              | error e =>
                  refine Or.inl ⟨e, rfl, ?_⟩
                  simp only [hdp]
                  rfl
              | ok conn =>
                  refine Or.inr ⟨conn, rfl, ?_⟩
                  simp only [hdp]
                  rfl

/-!  ## Cleanup precedence of `with_temporary_postgres` (claim C2)  -/

/-- C2 (amended): stop and remove failures are *not* best-effort.
(A) The task's captured result is returned only when both the stop and the
remove call succeed; (B) a stop failure replaces the inner result, even the
task's success; (C) a remove failure replaces every earlier error, including
a start failure. -/
theorem with_temporary_postgres_cleanup_precedence {T : Type} (env : PgEnv T) :
    (∀ s co cs conn,
        env.dockerConnect = Except.ok () →
        env.createContainer = Except.ok s →
        env.startContainer = Except.ok () →
        env.listContainers = Except.ok (co :: cs) →
        (discoverPort co).isSome →
        (connect_loop env.connectAttempt).1 = Except.ok conn →
        env.stopContainer = Except.ok () →
        env.removeContainer = Except.ok () →
        (with_temporary_postgres env).1 =
          Outcome.result (Except.ok (env.task conn))) ∧
    (∀ s co cs conn es,
        env.dockerConnect = Except.ok () →
        env.createContainer = Except.ok s →
        env.startContainer = Except.ok () →
        env.listContainers = Except.ok (co :: cs) →
        (discoverPort co).isSome →
        (connect_loop env.connectAttempt).1 = Except.ok conn →
        env.stopContainer = Except.error es →
        env.removeContainer = Except.ok () →
        (with_temporary_postgres env).1 =
          Outcome.result (Except.error (Error.Docker es))) ∧
    (∀ s e er,
        env.dockerConnect = Except.ok () →
        env.createContainer = Except.ok s →
        env.startContainer = Except.error e →
        env.removeContainer = Except.error er →
        (with_temporary_postgres env).1 =
          Outcome.result (Except.error (Error.Docker er))) := by
  refine ⟨?_, ?_, ?_⟩
  · intro s co cs conn hd hcs hs hl hp hcl hst hrm
    obtain ⟨p, hp'⟩ := Option.isSome_iff_exists.mp hp
    unfold with_temporary_postgres
    rw [hd, hcs, hs, hl]
    simp only [hp', hcl]
    exact finishStopRemove_result_ok env _ _ hst hrm
  · intro s co cs conn es hd hcs hs hl hp hcl hst hrm
    obtain ⟨p, hp'⟩ := Option.isSome_iff_exists.mp hp
    unfold with_temporary_postgres
    rw [hd, hcs, hs, hl]
    simp only [hp', hcl]
    exact finishStopRemove_result_stopErr env _ _ es hst hrm
  · intro s e er hd hcs hs hrm
    unfold with_temporary_postgres
    rw [hd, hcs, hs]
    exact finishRemove_result_err env _ _ er hrm

/-- Counterexample to C2 as stated: the container was created, starting it
failed with docker error 13, and the subsequent removal failed with docker
error 77; the function reports the removal error, replacing the start
error. -/
theorem remove_failure_replaces_start_error :
    (with_temporary_postgres pgEnvStartRemoveFail).1 =
        Outcome.result (Except.error (Error.Docker { code := 77 })) ∧
      (with_temporary_postgres pgEnvStartRemoveFail).1 ≠
        Outcome.result (Except.error (Error.Docker { code := 13 })) := by
  exact ⟨rfl, by decide⟩

/-!  ## Trace shape of `with_temporary_database`  -/

/-- Exhaustive case analysis of the statement trace of one
`with_temporary_database` run.  The trace depends only on how far setup got:
the outcomes of the two drop statements never change which statements are
executed, only the reported result. -/
theorem db_trace_cases {T : Type} (params : ConnectParams) (env : DbEnv T) :
    (∃ e, env.connect = Except.error e ∧
      (with_temporary_database params env).2 = [DbEvent.connect]) ∨
    (∃ c e, env.connect = Except.ok c ∧
      env.exec Stmt.createRole = Except.error e ∧
      (with_temporary_database params env).2 =
        [DbEvent.connect, DbEvent.exec Stmt.createRole]) ∨
    (∃ c e, env.connect = Except.ok c ∧
      env.exec Stmt.createRole = Except.ok () ∧
      env.exec Stmt.createDatabase = Except.error e ∧
      (with_temporary_database params env).2 =
        [DbEvent.connect, DbEvent.exec Stmt.createRole,
         DbEvent.exec Stmt.createDatabase, DbEvent.exec Stmt.dropRole]) ∨
    (∃ c e, env.connect = Except.ok c ∧
      env.exec Stmt.createRole = Except.ok () ∧
      env.exec Stmt.createDatabase = Except.ok () ∧
      env.exec Stmt.revokeAll = Except.error e ∧
      (with_temporary_database params env).2 =
        [DbEvent.connect, DbEvent.exec Stmt.createRole,
         DbEvent.exec Stmt.createDatabase, DbEvent.exec Stmt.revokeAll,
         DbEvent.exec Stmt.dropDatabase, DbEvent.exec Stmt.dropRole]) ∨
    (∃ c, env.connect = Except.ok c ∧
      env.exec Stmt.createRole = Except.ok () ∧
      env.exec Stmt.createDatabase = Except.ok () ∧
      env.exec Stmt.revokeAll = Except.ok () ∧
      (with_temporary_database params env).2 =
        [DbEvent.connect, DbEvent.exec Stmt.createRole,
         DbEvent.exec Stmt.createDatabase, DbEvent.exec Stmt.revokeAll,
         DbEvent.task, DbEvent.exec Stmt.dropDatabase,
         DbEvent.exec Stmt.dropRole]) := by
  unfold with_temporary_database
  cases hc : env.connect with
  | error e => exact Or.inl ⟨e, rfl, rfl⟩
  | ok c =>
    cases h1 : env.exec Stmt.createRole with
    | error e => exact Or.inr (Or.inl ⟨c, e, rfl, rfl, rfl⟩)
    | ok u1 =>
      cases h2 : env.exec Stmt.createDatabase with
      | error e =>
          cases h5 : env.exec Stmt.dropRole <;>
            exact Or.inr (Or.inr (Or.inl ⟨c, e, rfl, rfl, rfl, rfl⟩))
      | ok u2 =>
        cases h3 : env.exec Stmt.revokeAll with
        | error e =>
            cases h4 : env.exec Stmt.dropDatabase <;>
              cases h5 : env.exec Stmt.dropRole <;>
                exact Or.inr (Or.inr (Or.inr (Or.inl
                  ⟨c, e, rfl, rfl, rfl, rfl, rfl⟩)))
        | ok u3 =>
            cases h4 : env.exec Stmt.dropDatabase <;>
              cases h5 : env.exec Stmt.dropRole <;>
                exact Or.inr (Or.inr (Or.inr (Or.inr
                  ⟨c, rfl, rfl, rfl, rfl, rfl⟩)))

/-!  ## Claim C3: cleanup ordering of `with_temporary_database`  -/

/-- C3: whenever `DROP DATABASE` is executed, `DROP ROLE` is executed too and
strictly after it; when `CREATE DATABASE` failed, `DROP DATABASE` is skipped
but `DROP ROLE` still runs; when `CREATE ROLE` failed, no drop statement
runs at all. -/
theorem drop_database_before_drop_role {T : Type} (params : ConnectParams)
    (env : DbEnv T) :
    (DbEvent.exec Stmt.dropDatabase ∈ (with_temporary_database params env).2 →
      List.Sublist [DbEvent.exec Stmt.dropDatabase, DbEvent.exec Stmt.dropRole]
        (with_temporary_database params env).2) ∧
    (∀ co e, env.connect = Except.ok co →
      env.exec Stmt.createRole = Except.ok () →
      env.exec Stmt.createDatabase = Except.error e →
      DbEvent.exec Stmt.dropDatabase ∉ (with_temporary_database params env).2 ∧
        DbEvent.exec Stmt.dropRole ∈ (with_temporary_database params env).2) ∧
    (∀ co e, env.connect = Except.ok co →
      env.exec Stmt.createRole = Except.error e →
      DbEvent.exec Stmt.dropDatabase ∉ (with_temporary_database params env).2 ∧
        DbEvent.exec Stmt.dropRole ∉ (with_temporary_database params env).2) := by
  have hcases := db_trace_cases params env
  refine ⟨?_, ?_, ?_⟩
  · rcases hcases with ⟨e, hc, ht⟩ | ⟨c, e, hc, h1, ht⟩ | ⟨c, e, hc, h1, h2, ht⟩ |
      ⟨c, e, hc, h1, h2, h3, ht⟩ | ⟨c, hc, h1, h2, h3, ht⟩ <;> rw [ht] <;> decide
  · intro co e' hco h1' h2'
    rcases hcases with ⟨e, hc, ht⟩ | ⟨c, e, hc, h1, ht⟩ | ⟨c, e, hc, h1, h2, ht⟩ |
      ⟨c, e, hc, h1, h2, h3, ht⟩ | ⟨c, hc, h1, h2, h3, ht⟩
    · rw [hco] at hc; exact Except.noConfusion hc
    · rw [h1'] at h1; exact Except.noConfusion h1
    · rw [ht]; exact ⟨by decide, by decide⟩
    · rw [h2'] at h2; exact Except.noConfusion h2
    · rw [h2'] at h2; exact Except.noConfusion h2
  · intro co e' hco h1'
    rcases hcases with ⟨e, hc, ht⟩ | ⟨c, e, hc, h1, ht⟩ | ⟨c, e, hc, h1, h2, ht⟩ |
      ⟨c, e, hc, h1, h2, h3, ht⟩ | ⟨c, hc, h1, h2, h3, ht⟩
    · rw [hco] at hc; exact Except.noConfusion hc
    · rw [ht]; exact ⟨by decide, by decide⟩
    · rw [h1'] at h1; exact Except.noConfusion h1
    · rw [h1'] at h1; exact Except.noConfusion h1
    · rw [h1'] at h1; exact Except.noConfusion h1

/-!  ## Claim C4: stop precedes remove in `with_temporary_postgres`  -/

/-- Helper for C4: either the trace ends with the stop-then-forced-remove
suffix and the prefix before it contains no stop or remove event, or the
trace contains no stop event at all and any remove event in it is the forced
one. -/
theorem pg_cleanup_suffix {T : Type} (env : PgEnv T) :
    (∃ tr0, (with_temporary_postgres env).2 =
        tr0 ++ [PgEvent.stopContainer 5, PgEvent.removeContainer true] ∧
      (∀ g, PgEvent.stopContainer g ∉ tr0) ∧
      (∀ b, PgEvent.removeContainer b ∉ tr0)) ∨
    ((∀ g, PgEvent.stopContainer g ∉ (with_temporary_postgres env).2) ∧
      (∀ b, PgEvent.removeContainer b ∈ (with_temporary_postgres env).2 →
        b = true)) := by
  rcases pg_cases env with ⟨e, hd, h⟩ | ⟨e, hd, hc, h⟩ | ⟨s, e, hd, hc, hs, h⟩ |
    ⟨s, hd, hc, hs, hrest⟩
  · have ht := congrArg Prod.snd h
    refine Or.inr ⟨?_, ?_⟩ <;> intro x hx <;> rw [ht] at hx <;> simp at hx
  · have ht := congrArg Prod.snd h
    refine Or.inr ⟨?_, ?_⟩ <;> intro x hx <;> rw [ht] at hx <;> simp at hx
  · have ht := congrArg Prod.snd h
    rw [finishRemove_trace] at ht
    refine Or.inr ⟨?_, ?_⟩ <;> intro x hx <;> rw [ht] at hx <;> simp at hx
    exact hx
  · rcases hrest with ⟨e, hl, h⟩ | ⟨hl, h⟩ | ⟨co, cs, hl, hrest2⟩
    · have ht := congrArg Prod.snd h
      rw [finishStopRemove_trace] at ht
      refine Or.inl ⟨startTrace, ht, ?_, ?_⟩ <;>
        intro x hx <;> simp [startTrace] at hx
    · have ht := congrArg Prod.snd h
      refine Or.inr ⟨?_, ?_⟩ <;> intro x hx <;> rw [ht] at hx <;>
        simp [startTrace] at hx
    · rcases hrest2 with ⟨hdp, h⟩ | ⟨p, hdp, hrest3⟩
      · have ht := congrArg Prod.snd h
        rw [finishStopRemove_trace] at ht
        refine Or.inl ⟨startTrace, ht, ?_, ?_⟩ <;>
          intro x hx <;> simp [startTrace] at hx
      · rcases hrest3 with ⟨e, hcl, h⟩ | ⟨conn, hcl, h⟩
        · have ht := congrArg Prod.snd h
          rw [finishStopRemove_trace] at ht
          refine Or.inl ⟨_, ht, ?_, ?_⟩ <;> intro x hx <;>
            simp [startTrace] at hx
          · exact connect_loop_no_stop env.connectAttempt x hx
          · exact connect_loop_no_remove env.connectAttempt x hx
        · have ht := congrArg Prod.snd h
          rw [finishStopRemove_trace] at ht
          refine Or.inl ⟨_, ht, ?_, ?_⟩ <;> intro x hx <;>
            simp [startTrace] at hx
          · exact connect_loop_no_stop env.connectAttempt x hx
          · exact connect_loop_no_remove env.connectAttempt x hx

/-- C4: every stop call uses the 5 s grace period and every remove call uses
force; whenever a stop call happened, the forced remove follows it in the
trace (so stop precedes remove, and remove is attempted even when the stop
call failed). -/
theorem stop_precedes_remove {T : Type} (env : PgEnv T) :
    (∀ g, PgEvent.stopContainer g ∈ (with_temporary_postgres env).2 → g = 5) ∧
    (∀ b, PgEvent.removeContainer b ∈ (with_temporary_postgres env).2 →
      b = true) ∧
    (PgEvent.stopContainer 5 ∈ (with_temporary_postgres env).2 →
      List.Sublist [PgEvent.stopContainer 5, PgEvent.removeContainer true]
        (with_temporary_postgres env).2) ∧
    (∀ es, env.stopContainer = Except.error es →
      PgEvent.stopContainer 5 ∈ (with_temporary_postgres env).2 →
      PgEvent.removeContainer true ∈ (with_temporary_postgres env).2) := by
  have key := pg_cleanup_suffix env
  have hsub : PgEvent.stopContainer 5 ∈ (with_temporary_postgres env).2 →
      List.Sublist [PgEvent.stopContainer 5, PgEvent.removeContainer true]
        (with_temporary_postgres env).2 := by
    intro h5
    rcases key with ⟨tr0, ht, hns, hnr⟩ | ⟨hns, hrm⟩
    · rw [ht]
      exact List.Sublist.append (List.nil_sublist tr0) (List.Sublist.refl _)
    · exact absurd h5 (hns 5)
  refine ⟨?_, ?_, hsub, ?_⟩
  · intro g hg
    rcases key with ⟨tr0, ht, hns, hnr⟩ | ⟨hns, hrm⟩
    · rw [ht] at hg
      rcases List.mem_append.mp hg with hg0 | hg1
      · exact absurd hg0 (hns g)
      · simp at hg1
        exact hg1
    · exact absurd hg (hns g)
  · intro b hb
    rcases key with ⟨tr0, ht, hns, hnr⟩ | ⟨hns, hrm⟩
    · rw [ht] at hb
      rcases List.mem_append.mp hb with hb0 | hb1
      · exact absurd hb0 (hnr b)
      · simp at hb1
        exact hb1
    · exact hrm b hb
  · intro es hes h5
    exact (hsub h5).subset (by decide)

/-- Witness for C4, at the all-success environment: the stop event occurs in
its trace, and the cleanup pair is a subsequence of it. -/
theorem stop_precedes_remove_witness :
    List.Sublist [PgEvent.stopContainer 5, PgEvent.removeContainer true]
      (with_temporary_postgres pgEnvAllOk).2 :=
  (stop_precedes_remove pgEnvAllOk).2.2.1 (by decide)

/-- Witness for C3, at the all-success environment: both drop statements are
executed and `DROP DATABASE` precedes `DROP ROLE` as a subsequence of the
trace. -/
theorem drop_database_before_drop_role_witness :
    List.Sublist [DbEvent.exec Stmt.dropDatabase, DbEvent.exec Stmt.dropRole]
      (with_temporary_database params0 dbEnvAllOk).2 :=
  (drop_database_before_drop_role params0 dbEnvAllOk).1 (by decide)

/-!  ## Claim C7: the task runs only after full setup, and at most once  -/

/-- C7: in both provisioning functions the caller's task is invoked only when
every setup step succeeded (administrative connect, CREATE ROLE, CREATE
DATABASE and REVOKE for the database side; docker connect, container create
and start, a non-empty listing with a discovered port, and a successful
connect for the server side), and in every run it is invoked at most once. -/
theorem task_requires_full_setup {T U : Type} (params : ConnectParams)
    (denv : DbEnv T) (penv : PgEnv U) :
    (DbEvent.task ∈ (with_temporary_database params denv).2 →
      (∃ c, denv.connect = Except.ok c) ∧
      denv.exec Stmt.createRole = Except.ok () ∧
      denv.exec Stmt.createDatabase = Except.ok () ∧
      denv.exec Stmt.revokeAll = Except.ok ()) ∧
    ((with_temporary_database params denv).2.count DbEvent.task ≤ 1) ∧
    (PgEvent.task ∈ (with_temporary_postgres penv).2 →
      penv.dockerConnect = Except.ok () ∧
      (∃ s, penv.createContainer = Except.ok s) ∧
      penv.startContainer = Except.ok () ∧
      (∃ co cs, penv.listContainers = Except.ok (co :: cs) ∧
        (discoverPort co).isSome) ∧
      (∃ conn, (connect_loop penv.connectAttempt).1 = Except.ok conn)) ∧
    ((with_temporary_postgres penv).2.count PgEvent.task ≤ 1) := by
  have hdb := db_trace_cases params denv
  have hpg := pg_cases penv
  refine ⟨?_, ?_, ?_, ?_⟩
  · intro htask
    rcases hdb with ⟨e, hc, ht⟩ | ⟨c, e, hc, h1, ht⟩ | ⟨c, e, hc, h1, h2, ht⟩ |
      ⟨c, e, hc, h1, h2, h3, ht⟩ | ⟨c, hc, h1, h2, h3, ht⟩ <;> rw [ht] at htask
    · simp at htask
    · simp at htask
    · simp at htask
    · simp at htask
    · exact ⟨⟨c, hc⟩, h1, h2, h3⟩
  · rcases hdb with ⟨e, hc, ht⟩ | ⟨c, e, hc, h1, ht⟩ | ⟨c, e, hc, h1, h2, ht⟩ |
      ⟨c, e, hc, h1, h2, h3, ht⟩ | ⟨c, hc, h1, h2, h3, ht⟩ <;> rw [ht] <;> decide
  · intro htask
    rcases hpg with ⟨e, hd, h⟩ | ⟨e, hd, hc, h⟩ | ⟨s, e, hd, hc, hs, h⟩ |
      ⟨s, hd, hc, hs, hrest⟩
    · have ht := congrArg Prod.snd h
      rw [ht] at htask
      simp at htask
    · have ht := congrArg Prod.snd h
      rw [ht] at htask
      simp at htask
    · have ht := congrArg Prod.snd h
      rw [finishRemove_trace] at ht
      rw [ht] at htask
      simp at htask
    · rcases hrest with ⟨e, hl, h⟩ | ⟨hl, h⟩ | ⟨co, cs, hl, hrest2⟩
      · have ht := congrArg Prod.snd h
        rw [finishStopRemove_trace] at ht
        rw [ht] at htask
        simp [startTrace] at htask
      · have ht := congrArg Prod.snd h
        rw [ht] at htask
        simp [startTrace] at htask
      · rcases hrest2 with ⟨hdp, h⟩ | ⟨p, hdp, hrest3⟩
        · have ht := congrArg Prod.snd h
          rw [finishStopRemove_trace] at ht
          rw [ht] at htask
          simp [startTrace] at htask
        · rcases hrest3 with ⟨e, hcl, h⟩ | ⟨conn, hcl, h⟩
          · have ht := congrArg Prod.snd h
            rw [finishStopRemove_trace] at ht
            rw [ht] at htask
            simp [startTrace] at htask
            exact absurd htask (connect_loop_no_task penv.connectAttempt)
          · refine ⟨hd, ⟨s, hc⟩, hs, ⟨co, cs, hl, ?_⟩, ⟨conn, hcl⟩⟩
            rw [hdp]
            rfl
  · have h0 : (connect_loop penv.connectAttempt).2.2.count PgEvent.task = 0 :=
      List.count_eq_zero.mpr (connect_loop_no_task penv.connectAttempt)
    rcases hpg with ⟨e, hd, h⟩ | ⟨e, hd, hc, h⟩ | ⟨s, e, hd, hc, hs, h⟩ |
      ⟨s, hd, hc, hs, hrest⟩
    · have ht := congrArg Prod.snd h
      rw [ht]
      simp
    · have ht := congrArg Prod.snd h
      rw [ht]
      simp
    · have ht := congrArg Prod.snd h
      rw [finishRemove_trace] at ht
      rw [ht]
      decide
    · rcases hrest with ⟨e, hl, h⟩ | ⟨hl, h⟩ | ⟨co, cs, hl, hrest2⟩
      · have ht := congrArg Prod.snd h
        rw [finishStopRemove_trace] at ht
        rw [ht]
        decide
      · have ht := congrArg Prod.snd h
        rw [ht]
        simp [startTrace]
      · rcases hrest2 with ⟨hdp, h⟩ | ⟨p, hdp, hrest3⟩
        · have ht := congrArg Prod.snd h
          rw [finishStopRemove_trace] at ht
          rw [ht]
          decide
        · rcases hrest3 with ⟨e, hcl, h⟩ | ⟨conn, hcl, h⟩ <;>
            have ht := congrArg Prod.snd h <;>
            rw [finishStopRemove_trace] at ht <;>
            rw [ht] <;>
            simp [List.count_append, h0, startTrace]

/-- Witness for C7, at the all-success environments: both tasks ran, so both
setup chains are certified successful (two representative conjuncts of the
certified setup are stated). -/
theorem task_requires_full_setup_witness :
    dbEnvAllOk.exec Stmt.createRole = Except.ok () ∧
      pgEnvAllOk.startContainer = Except.ok () :=
  ⟨((task_requires_full_setup params0 dbEnvAllOk pgEnvAllOk).1 (by decide)).2.1,
   ((task_requires_full_setup params0 dbEnvAllOk pgEnvAllOk).2.2.1
       (by decide)).2.2.1⟩

/-!  ## Claim C5: the connect-retry loop  -/

set_option maxRecDepth 8000 in
/-- C5 (amended): when every attempt fails the loop makes exactly 100
attempts — numbered 1..100, with a fixed 100 ms sleep between consecutive
attempts and none after the last — and returns the last underlying connect
error itself (the source's `Error` enum has no timeout variant; the raw
`postgres` error is returned, a `TODO timeouterror` in the source); on the
first successful attempt it stops retrying, and the connection obtained is
passed to the task. -/
theorem connect_retry_loop_contract {T : Type} (env : PgEnv T) :
    ((∀ k, 1 ≤ k → k ≤ 100 → ∃ e, env.connectAttempt k = Except.error e) →
      (connect_loop env.connectAttempt).2.1 = 100 ∧
      (connect_loop env.connectAttempt).1 = env.connectAttempt 100 ∧
      (connect_loop env.connectAttempt).2.2 = allFailEvents 0 99) ∧
    ((allFailEvents 0 99).filterMap attemptNum =
        (List.range 100).map (fun k => k + 1) ∧
      (allFailEvents 0 99).count (PgEvent.sleepMs 100) = 99 ∧
      (∀ ev ∈ allFailEvents 0 99,
        attemptNum ev = none → ev = PgEvent.sleepMs 100)) ∧
    (∀ j c, 1 ≤ j → j ≤ 100 →
      (∀ k, 1 ≤ k → k < j → ∃ e, env.connectAttempt k = Except.error e) →
      env.connectAttempt j = Except.ok c →
      (connect_loop env.connectAttempt).1 = Except.ok c ∧
        (connect_loop env.connectAttempt).2.1 = j) ∧
    (∀ s co cs p conn,
      env.dockerConnect = Except.ok () →
      env.createContainer = Except.ok s →
      env.startContainer = Except.ok () →
      env.listContainers = Except.ok (co :: cs) →
      discoverPort co = some p →
      (connect_loop env.connectAttempt).1 = Except.ok conn →
      env.stopContainer = Except.ok () →
      env.removeContainer = Except.ok () →
      (with_temporary_postgres env).1 =
        Outcome.result (Except.ok (env.task conn))) := by
  refine ⟨?_, ⟨by decide, by decide, by decide⟩, ?_, ?_⟩
  · intro h
    have hall := connectLoopAux_allFail env.connectAttempt 99 0
      (fun k hk1 hk2 => h k (by omega) (by omega))
    unfold connect_loop
    rw [hall]
    exact ⟨rfl, rfl, rfl⟩
  · intro j c h1 h2 hf hj
    exact connectLoopAux_firstOk env.connectAttempt 99 0 j c (by omega)
      (by omega) (fun k hk1 hk2 => hf k (by omega) hk2) hj
  · intro s co cs p conn hd hcs hs hl hdp hcl hst hrm
    unfold with_temporary_postgres
    rw [hd, hcs, hs, hl]
    simp only [hdp, hcl]
    exact finishStopRemove_result_ok env _ _ hst hrm

set_option maxRecDepth 4000 in
/-- Counterexample to C5 as stated: with every attempt failing, the function
returns `Error.Postgres {code := 100}` — the raw error of the 100th and last
connect attempt itself, not a dedicated timeout error wrapping it (the
embedded `Error` enum, like the crate's, has only the constructors `Docker`,
`DockerCreationFailed` and `Postgres`).  The trace confirms 100 attempts and
99 fixed sleeps. -/
theorem connect_retry_returns_raw_last_error :
    (with_temporary_postgres pgEnvConnNeverOk).1 =
        Outcome.result (Except.error (Error.Postgres { code := 100 })) ∧
      ((with_temporary_postgres pgEnvConnNeverOk).2.filterMap attemptNum).length
          = 100 ∧
      (with_temporary_postgres pgEnvConnNeverOk).2.count (PgEvent.sleepMs 100)
          = 99 := by
  refine ⟨by decide, by decide, by decide⟩

/-!  ## Claim C6: port discovery  -/

/-- C6 (amended): when the listing returned at least one container and the
first one has no public mapping for internal port 5432, the run makes no
connect attempt, attempts stop (5 s) and then forced remove, and — when both
cleanup calls succeed — reports `DockerCreationFailed` with the static
port-discovery message.  When the listing is empty, however, the source
panics on `first().unwrap()` and neither stop nor remove runs. -/
theorem port_discovery_no_mapping {T : Type} (env : PgEnv T) :
    (∀ s co cs,
      env.dockerConnect = Except.ok () →
      env.createContainer = Except.ok s →
      env.startContainer = Except.ok () →
      env.listContainers = Except.ok (co :: cs) →
      discoverPort co = none →
      (with_temporary_postgres env).2 =
        [PgEvent.createContainer, PgEvent.startContainer,
         PgEvent.listContainers, PgEvent.stopContainer 5,
         PgEvent.removeContainer true] ∧
      (env.stopContainer = Except.ok () → env.removeContainer = Except.ok () →
        (with_temporary_postgres env).1 =
          Outcome.result
            (Except.error (Error.DockerCreationFailed portErrorMsg)))) ∧
    (∀ s,
      env.dockerConnect = Except.ok () →
      env.createContainer = Except.ok s →
      env.startContainer = Except.ok () →
      env.listContainers = Except.ok [] →
      with_temporary_postgres env = (Outcome.panicked, startTrace)) := by
  constructor
  · intro s co cs hd hcs hs hl hdp
    have h : with_temporary_postgres env =
        finishStopRemove env
          (Except.error (Error.DockerCreationFailed portErrorMsg))
          startTrace := by
      unfold with_temporary_postgres
      rw [hd, hcs, hs, hl]
      simp only [hdp]
      rfl
    constructor
    · have ht := congrArg Prod.snd h
      rw [finishStopRemove_trace] at ht
      rw [ht]
      rfl
    · intro hst hrm
      rw [h]
      exact finishStopRemove_result_ok env _ _ hst hrm
  · intro s hd hcs hs hl
    unfold with_temporary_postgres
    rw [hd, hcs, hs, hl]
    rfl

/-- Counterexample to C6 as stated: on an empty listing the run panics
(`first().unwrap()`) instead of returning a port-discovery error, and when
the stop call fails the port-discovery error is not the reported one — the
stop error replaces it. -/
theorem empty_listing_panics :
    (with_temporary_postgres pgEnvEmptyListing).1 = Outcome.panicked ∧
      (with_temporary_postgres pgEnvNoPortStopFail).1 =
        Outcome.result (Except.error (Error.Docker { code := 9 })) :=
  ⟨rfl, rfl⟩

/-- Witness for C6, at a listing whose only container exposes no ports: the
run performs no connect attempt, stops and force-removes the container, and
reports the port-discovery failure. -/
theorem port_discovery_no_mapping_witness :
    (with_temporary_postgres pgEnvNoPort).2 =
        [PgEvent.createContainer, PgEvent.startContainer,
         PgEvent.listContainers, PgEvent.stopContainer 5,
         PgEvent.removeContainer true] ∧
      (with_temporary_postgres pgEnvNoPort).1 =
        Outcome.result
          (Except.error (Error.DockerCreationFailed portErrorMsg)) := by
  have h := (port_discovery_no_mapping pgEnvNoPort).1 cid0 { Ports := [] } []
    rfl rfl rfl rfl rfl
  exact ⟨h.1, h.2 rfl rfl⟩

/-!  ## Claim C8: the generated identity's alphabet and length  -/

/-- Lowercasing maps the `Alphanumeric` alphabet into `[a-z0-9]`. -/
theorem toAsciiLowercase_maps_alnum :
    ∀ c ∈ alphanumericChars, toAsciiLowercase c ∈ lowerAlnumChars := by
  decide

/-- C8 (amended): with the rng sampling from the `Alphanumeric` alphabet,
the random portion of the database name is 20 characters of `[a-z0-9]`, but
the full name prepends the fixed tag `kpg_fixture_` (which contains
underscores, outside `[a-z0-9]`); the password is exactly 32 characters, all
in `[a-z0-9]`. -/
theorem random_identity_alphabet (sample samplePass : Nat → Char)
    (h1 : ∀ i, sample i ∈ alphanumericChars)
    (h2 : ∀ i, samplePass i ∈ alphanumericChars) :
    (random_string sample 20).length = 20 ∧
    (∀ c ∈ random_string sample 20, c ∈ lowerAlnumChars) ∧
    gen_dbname sample = dbnameStem ++ random_string sample 20 ∧
    (gen_password samplePass).length = 32 ∧
    (∀ c ∈ gen_password samplePass, c ∈ lowerAlnumChars) := by
  refine ⟨by simp [random_string], ?_, rfl, by simp [gen_password, random_string], ?_⟩
  · intro c hc
    simp [random_string] at hc
    obtain ⟨i, hi, hrw⟩ := hc
    exact hrw ▸ toAsciiLowercase_maps_alnum _ (h1 i)
  · intro c hc
    simp [gen_password, random_string] at hc
    obtain ⟨i, hi, hrw⟩ := hc
    exact hrw ▸ toAsciiLowercase_maps_alnum _ (h2 i)

/-- Counterexample to C8 as stated: the generated database name is not drawn
from `[a-z0-9]` alone — its fixed `kpg_fixture_` prefix contains the
underscore character, which is outside that alphabet. -/
theorem dbname_contains_underscore :
    '_' ∈ gen_dbname (fun _ => 'a') ∧ '_' ∉ lowerAlnumChars := by
  decide

/-- Witness for C8, at constant samplers inside the alphabet. -/
theorem random_identity_alphabet_witness :
    (random_string (fun _ => 'a') 20).length = 20 ∧
      (gen_password (fun _ => 'b')).length = 32 :=
  ⟨(random_identity_alphabet (fun _ => 'a') (fun _ => 'b')
      (fun _ => by show 'a' ∈ alphanumericChars; decide)
      (fun _ => by show 'b' ∈ alphanumericChars; decide)).1,
   (random_identity_alphabet (fun _ => 'a') (fun _ => 'b')
      (fun _ => by show 'a' ∈ alphanumericChars; decide)
      (fun _ => by show 'b' ∈ alphanumericChars; decide)).2.2.2.1⟩

/-!  ## Claim C9: derivation of the sandbox connection parameters  -/

/-- C9: recovering the parameters the task was handed (by using the identity
task), they are the server parameters with host, port, connect timeout and
the whole ordered option list unchanged, while the username and target
database both equal the generated database name (role = database by
convention) and the password is the generated one. -/
theorem sandbox_params_derivation (params : ConnectParams)
    (env : DbEnv ConnectParams) (co : Conn)
    (htask : env.task = fun p => p)
    (hc : env.connect = Except.ok co)
    (h1 : env.exec Stmt.createRole = Except.ok ())
    (h2 : env.exec Stmt.createDatabase = Except.ok ())
    (h3 : env.exec Stmt.revokeAll = Except.ok ())
    (h4 : env.exec Stmt.dropDatabase = Except.ok ())
    (h5 : env.exec Stmt.dropRole = Except.ok ()) :
    (with_temporary_database params env).1 =
      Except.ok
        { host := params.host
          port := params.port
          user := String.mk (gen_dbname env.sampleName)
          password := some (gen_password env.samplePass)
          database := some (gen_dbname env.sampleName)
          connectTimeoutMs := params.connectTimeoutMs
          options := params.options } := by
  unfold with_temporary_database
  rw [hc, h1, h2, h3, h4, h5, htask]
  rfl

/-- Witness for C9, at the identity-task environment over `params0`. -/
theorem sandbox_params_derivation_witness :
    (with_temporary_database params0 dbEnvParamsTask).1 =
      Except.ok
        { host := params0.host
          port := params0.port
          user := String.mk (gen_dbname dbEnvParamsTask.sampleName)
          password := some (gen_password dbEnvParamsTask.samplePass)
          database := some (gen_dbname dbEnvParamsTask.sampleName)
          connectTimeoutMs := params0.connectTimeoutMs
          options := params0.options } :=
  sandbox_params_derivation params0 dbEnvParamsTask { id := 1 }
    rfl rfl rfl rfl rfl rfl rfl

/-!  ## Claim C10: `clone_tls_mode` is the identity  -/

/-- C10: for every `TlsMode` value, over any handshake type, `clone_tls_mode`
returns a value equal to its argument, preserving the variant and the
contained handshake. -/
theorem clone_tls_mode_id {H : Type} (t : TlsMode H) : clone_tls_mode t = t := by
  cases t <;> rfl

/-- Witness for C2, at the all-success environment: the task ran, returned
the id 7 of the connection it was handed, and with both cleanup calls
succeeding that is the reported result. -/
theorem pg_cleanup_precedence_witness :
    (with_temporary_postgres pgEnvAllOk).1 =
      Outcome.result (Except.ok 7) :=
  (with_temporary_postgres_cleanup_precedence pgEnvAllOk).1 cid0 container0 []
    { id := 7 } rfl rfl rfl rfl (by decide) (by decide) rfl rfl

/-- Witness for C5, at the environment whose attempts all fail: the loop made
exactly 100 attempts, returned the raw error of attempt 100, and produced the
all-fail trace. -/
theorem connect_retry_loop_contract_witness :
    (connect_loop pgEnvConnNeverOk.connectAttempt).2.1 = 100 ∧
      (connect_loop pgEnvConnNeverOk.connectAttempt).1 =
        pgEnvConnNeverOk.connectAttempt 100 ∧
      (connect_loop pgEnvConnNeverOk.connectAttempt).2.2 = allFailEvents 0 99 :=
  (connect_retry_loop_contract pgEnvConnNeverOk).1
    (fun k _ _ => ⟨{ code := k }, rfl⟩)
